import Mathlib

/-!
Verification of the marketwatch backtesting core against its specification.

The Python sources are shallowly embedded: prices, fees and PnL values are
modelled as exact rationals (`ℚ`); the z-score computations that go through
`math.sqrt` / `math.exp` are modelled over the reals (`ℝ`), which makes those
definitions noncomputable but keeps them faithful to the source formulas.
Python dictionaries returned by the strategy functions are modelled as Lean
structures; a dict key `"open"` is modelled by the field `open_price` (Lean
reserves the identifier `open`).
-/

set_option maxHeartbeats 1600000

namespace MarketWatch

/-- One OHLCV candle as produced by `generate_realistic_btc_data`
(dict keys `open_time`, `open`, `high`, `low`, `close`, `volume`,
`close_time` in the source). -/
structure Candle where
  open_time : ℤ
  open_price : ℚ
  high : ℚ
  low : ℚ
  close : ℚ
  volume : ℚ
  close_time : ℤ
  deriving DecidableEq, Repr

instance : Inhabited Candle := ⟨⟨0, 0, 0, 0, 0, 0, 0⟩⟩

namespace Backtest

/-- Model of `src/backtest.py`: `calc_sma(candles, period)`. -/
def calc_sma (candles : List Candle) (period : ℕ) : ℚ :=
  if candles.length < period then 0
  else (((candles.drop (candles.length - period)).map Candle.close).sum) / period

/-- Model of `src/backtest.py`: `calc_volatility(candle)`. -/
def calc_volatility (candle : Candle) : ℚ :=
  if candle.open_price = 0 then 0
  else ((candle.high - candle.low) / candle.open_price) * 100

/-- Model of `src/backtest.py`: `calc_price_position(candle)`. -/
def calc_price_position (candle : Candle) : ℚ :=
  let rng := candle.high - candle.low
  if rng = 0 then 50
  else ((candle.close - candle.low) / rng) * 100

/-- Model of `src/backtest.py`: `calc_momentum_3h(candles, current_price)`;
`candles[-3]` is the element at index `len - 3`. -/
def calc_momentum_3h (candles : List Candle) (current_price : ℚ) : ℚ :=
  if candles.length < 3 then 0
  else
    let three_ago := (candles.getD (candles.length - 3) default).close
    if three_ago = 0 then 0
    else ((current_price - three_ago) / three_ago) * 100

/-- Model of `src/backtest.py`: `calc_hour_return(candle, current_price)`. -/
def calc_hour_return (candle : Candle) (current_price : ℚ) : ℚ :=
  if candle.open_price = 0 then 0
  else ((current_price - candle.open_price) / candle.open_price) * 100

/-- Constant `STRIKE_INCREMENT = 250`. -/
def STRIKE_INCREMENT : ℚ := 250

/-- Model of `src/backtest.py`: `calc_strike(btc_price, strike_type)`.  The
Python builtin `round` is banker rounding while the Lean `round` is
round-half-up; the two differ only at exact half-increment ties of the
`"ATM"` branch, which no claim touches (the strategies use `"OTM"`). -/
def calc_strike (btc_price : ℚ) (strike_type : String) : ℚ :=
  if strike_type = "ATM" then (round (btc_price / STRIKE_INCREMENT) : ℤ) * STRIKE_INCREMENT
  else (⌊btc_price / STRIKE_INCREMENT⌋ : ℤ) * STRIKE_INCREMENT

/-- Constant `TAKER_FEE_PCT = 1.5`. -/
def TAKER_FEE_PCT : ℚ := 1.5

/-- Model of `src/backtest.py`: `calc_net_pnl(contracts, entry_price, exit_price, exit_type)`. -/
def calc_net_pnl (contracts entry_price exit_price : ℚ) (exit_type : String) : ℚ :=
  let entry_cost := contracts * entry_price
  let entry_fee := entry_cost * (TAKER_FEE_PCT / 100)
  let total_entry_cost := entry_cost + entry_fee
  let exit_revenue := contracts * exit_price
  if exit_type = "early" then
    let exit_fee := exit_revenue * (TAKER_FEE_PCT / 100)
    (exit_revenue - exit_fee) - total_entry_cost
  else
    exit_revenue - total_entry_cost

/-- Model of `src/backtest.py`: `calc_risk_of_ruin(current_price, strike, volatility,
minutes_remaining)`.  The z-score goes through `math.sqrt`, so it is computed
over `ℝ`; the returned bucket probability is an exact rational. -/
noncomputable def calc_risk_of_ruin (current_price strike volatility minutes_remaining : ℚ) : ℚ :=
  let distance : ℝ := (current_price : ℝ) - (strike : ℝ)
  let time_hours : ℝ := (minutes_remaining : ℝ) / 60
  let expected_move : ℝ :=
    (current_price : ℝ) * ((volatility : ℝ) / 100) * Real.sqrt (max time_hours 0.01)
  let z : ℝ := if expected_move > 0 then distance / expected_move else 0
  if z ≤ -2 then 0.98
  else if z ≤ -1 then 0.84
  else if z ≤ -0.5 then 0.69
  else if z ≤ 0 then 0.5
  else if z ≤ 0.5 then 0.31
  else if z ≤ 1 then 0.16
  else if z ≤ 1.5 then 0.07
  else if z ≤ 2 then 0.02
  else 0.01

/-- Model of `src/backtest.py`: `estimate_contract_price(distance_from_strike, minutes_remaining)`. -/
def estimate_contract_price (distance_from_strike minutes_remaining : ℚ) : ℚ :=
  if distance_from_strike ≤ 0 then 0.30
  else
    let base := min 0.95 (0.5 + distance_from_strike / 1000)
    let time_mult := 1 + (60 - minutes_remaining) / 120
    min 0.99 (base * time_mult)

/-- Result dict of `check_conservative` / `check_aggressive`; the purely
diagnostic `checks` and `values` sub-dicts (only used for reporting) are not
modelled. -/
structure SignalResult where
  signal : Bool
  strike : Option ℚ
  entry_price : ℚ
  contracts : ℤ
  deriving DecidableEq, Repr

/-- Model of `src/backtest.py`: `check_conservative(candles, current_price, hour_utc,
min_strike_distance)`.  `candles[-1]` is modelled by `getLastD default`
(callers always pass at least 13 candles). -/
def check_conservative (candles : List Candle) (current_price : ℚ) (hour_utc : ℤ)
    (min_strike_distance : ℚ) : SignalResult :=
  let is_market := decide (14 ≤ hour_utc ∧ hour_utc < 21)
  let sma3 := calc_sma candles 3
  let sma6 := calc_sma candles 6
  let sma12 := calc_sma candles 12
  let vol := calc_volatility (candles.getLastD default)
  let pos := calc_price_position (candles.getLastD default)
  let short_trend := decide (sma3 > sma6) ||
    (decide (sma6 > 0) && decide ((sma6 - sma3) / sma6 < 0.001))
  let medium_trend := decide (sma6 > sma12)
  let vol_ok := decide (0.5 ≤ vol ∧ vol ≤ 2.0)
  let strong := decide (pos > 60)
  let strike := calc_strike current_price "OTM"
  let distance_to_strike := current_price - strike
  let strike_ok := decide (distance_to_strike ≥ min_strike_distance)
  let passed := is_market && short_trend && medium_trend && vol_ok && strong && strike_ok
  { signal := passed,
    strike := if passed then some strike else none,
    entry_price := 0.60,
    contracts := ⌊(10 : ℚ) / 0.60⌋ }

/-- Model of `src/backtest.py`: `check_aggressive(candles, current_price, hour_utc,
min_strike_distance)`. -/
def check_aggressive (candles : List Candle) (current_price : ℚ) (hour_utc : ℤ)
    (min_strike_distance : ℚ) : SignalResult :=
  let is_market := decide (14 ≤ hour_utc ∧ hour_utc < 21)
  let sma3 := calc_sma candles 3
  let sma6 := calc_sma candles 6
  let sma12 := calc_sma candles 12
  let mom := calc_momentum_3h candles current_price
  let hr := calc_hour_return (candles.getLastD default) current_price
  let short_trend := decide (sma3 > sma6) ||
    (decide (sma6 > 0) && decide ((sma6 - sma3) / sma6 < 0.001))
  let medium_trend := decide (sma6 > sma12)
  let strong_mom := decide (mom > 1.0)
  let hour_up := decide (hr > 0.3)
  let strike := calc_strike current_price "OTM"
  let distance_to_strike := current_price - strike
  let strike_ok := decide (distance_to_strike ≥ min_strike_distance)
  let passed := is_market && short_trend && medium_trend && strong_mom && hour_up && strike_ok
  { signal := passed,
    strike := if passed then some strike else none,
    entry_price := 0.40,
    contracts := ⌊(20 : ℚ) / 0.40⌋ }

/-- Outcome strings of `simulate_trade` in `src/backtest.py`. -/
inductive Outcome where
  | no_data
  | win
  | loss
  | early_exit_critical
  | early_exit_ev
  | early_exit_high_risk
  deriving DecidableEq, Repr

/-- Result dict of `simulate_trade` in `src/backtest.py` (the `exit_reason`
string is a constant tag per outcome and is not modelled separately). -/
structure TradeResult where
  outcome : Outcome
  pnl : ℚ
  settlement_price : Option ℚ
  deriving DecidableEq, Repr

/-- Model of `src/backtest.py`: `simulate_trade(entry_price, strike, contracts,
candles_after, volatility)` — the intelligent-exit state machine with
checkpoints at the 30-minute and 50-minute marks.  The late-checkpoint
quantities are `let`-hoisted out of the `late_ror >= 0.3` guard; they are
pure, so this is observationally identical to the source. -/
noncomputable def simulate_trade (entry_price strike contracts : ℚ)
    (candles_after : List Candle) (volatility : ℚ) : TradeResult :=
  match candles_after with
  | [] => { outcome := .no_data, pnl := 0, settlement_price := none }
  | settlement_candle :: _ =>
    let settlement_price := settlement_candle.close
    let mid_price := (settlement_candle.open_price + settlement_candle.close) / 2
    let distance_mid := mid_price - strike
    let ror := calc_risk_of_ruin mid_price strike volatility 30
    let implied_price := estimate_contract_price distance_mid 30
    let early_exit_pnl := calc_net_pnl contracts entry_price implied_price "early"
    let win_prob := 1 - ror
    let settle_win_pnl := calc_net_pnl contracts entry_price 1 "settlement"
    let settle_lose_pnl := calc_net_pnl contracts entry_price 0 "settlement"
    let settle_ev := win_prob * settle_win_pnl + ror * settle_lose_pnl
    if ror ≥ 0.5 then
      { outcome := .early_exit_critical, pnl := early_exit_pnl,
        settlement_price := some settlement_price }
    else if settle_ev < early_exit_pnl ∧ early_exit_pnl > 0 then
      { outcome := .early_exit_ev, pnl := early_exit_pnl,
        settlement_price := some settlement_price }
    else
      let late_price := settlement_candle.close
      let late_distance := late_price - strike
      let late_ror := calc_risk_of_ruin late_price strike volatility 10
      let late_implied := estimate_contract_price late_distance 10
      let late_exit_pnl := calc_net_pnl contracts entry_price late_implied "early"
      let late_win_prob := 1 - late_ror
      let late_settle_ev := late_win_prob * settle_win_pnl + late_ror * settle_lose_pnl
      if late_ror ≥ 0.3 ∧ late_settle_ev ≤ late_exit_pnl * 1.2 then
        { outcome := .early_exit_high_risk, pnl := late_exit_pnl,
          settlement_price := some settlement_price }
      else if settlement_price > strike then
        { outcome := .win, pnl := calc_net_pnl contracts entry_price 1 "settlement",
          settlement_price := some settlement_price }
      else
        { outcome := .loss, pnl := calc_net_pnl contracts entry_price 0 "settlement",
          settlement_price := some settlement_price }

/-- UTC hour of the candle field `open_time` (ms): `datetime.fromtimestamp(
ts/1000, tz=utc).hour` in `run_backtest`. -/
def hour_of (c : Candle) : ℤ := (c.open_time.fdiv 3600000) % 24

/-- Number of fired signals a strategy produces over one candle path, as
counted by `run_backtest` in `src/backtest.py`: evaluation at every index
`i ∈ range(12, len(candles) - 1)` with `history = candles[max(0, i-12) : i+1]`
and `current_price = candles[i]["close"]`. -/
def count_signals (fn : List Candle → ℚ → ℤ → ℚ → SignalResult)
    (candles : List Candle) (min_strike_dist : ℚ) : ℕ :=
  (List.range' 12 (candles.length - 1 - 12)).countP (fun i =>
    let candle := candles.getD i default
    (fn ((candles.drop (i - 12)).take (i + 1 - (i - 12)))
      candle.close (hour_of candle) min_strike_dist).signal)

/-- Random draw streams abstracting the `random` module calls inside
`generate_realistic_btc_data`.  The Mersenne-Twister PRNG itself is outside
the shallow embedding; a seed determines one concrete stream of draws, so
quantifying over all streams covers every seed.  `random.uniform(a, b)` is
modelled as `a + (b - a) * u` with a unit draw `u` (its contract keeps `u` in
`[0, 1)`); `random.gauss` draws are unconstrained rationals, which subsumes
both branches of the 5% fat-tail mixture and makes the per-regime drift
parameter unobservable. -/
structure DrawStreams where
  u_switch : ℕ → ℚ
  pick : ℕ → ℕ
  ret : ℕ → ℚ
  u_range : ℕ → ℚ
  u_hi : ℕ → ℚ
  u_lo : ℕ → ℚ
  u_vol : ℕ → ℚ

/-- The `regimes` table of `generate_realistic_btc_data`: `(drift_per_hour,
vol_multiplier)` for bull_trend, strong_bull, ranging, bear_trend, selloff,
recovery (in that order); `random.choices` always picks one of the six. -/
def regime_params (r : ℕ) : ℚ × ℚ :=
  [((0.0004 : ℚ), (0.8 : ℚ)), (0.0008, 1.2), (0, 0.6),
   (-0.0003, 1.0), (-0.0010, 2.0), (0.0006, 1.5)].getD r (0.0004, 0.8)

/-- Constant `base_hourly_vol = 0.009`. -/
def base_hourly_vol : ℚ := 0.009

/-- Value of `int(datetime(2025, 2, 11, tzinfo=utc).timestamp() * 1000)`. -/
def start_ts : ℤ := 1739232000000

/-- Model of the Python `round(x, 2)` used when storing OHLCV values.
Python rounds half-to-even on floats while the Lean `round` is half-up; both
are monotone, which is all the OHLC invariant needs, and no claim depends on
ties. -/
def round2 (x : ℚ) : ℚ := ((round (x * 100) : ℤ) : ℚ) / 100

/-- Generator state threaded through the hourly loop of
`generate_realistic_btc_data`. -/
structure GenState where
  price : ℚ
  regime : ℕ
  duration : ℕ

/-- One iteration of the hourly loop of `generate_realistic_btc_data`
(`src/backtest.py` lines 51-113): regime switching, return draw, OHLC shaping
with the invariant clamp, cent rounding, and the soft mean-reversion nudge. -/
def gen_candle (rs : DrawStreams) (h : ℕ) (st : GenState) : Candle × GenState :=
  let duration0 := st.duration + 1
  let switch := decide (rs.u_switch h < 0.02 + (duration0 : ℚ) / 500)
  let regime := if switch then rs.pick h else st.regime
  let duration := if switch then 0 else duration0
  let vol_mult := (regime_params regime).2
  let hourly_vol := base_hourly_vol * vol_mult
  let ret := rs.ret h
  let open_price := st.price
  let close_price := open_price * (1 + ret)
  let intra_vol := |ret| + hourly_vol * (0.3 + (1.5 - 0.3) * rs.u_range h)
  let hi_width := if close_price ≥ open_price then intra_vol * 0.5 else intra_vol * 0.3
  let lo_width := if close_price ≥ open_price then intra_vol * 0.3 else intra_vol * 0.5
  let high0 := max open_price close_price * (1 + rs.u_hi h * hi_width)
  let low0 := min open_price close_price * (1 - rs.u_lo h * lo_width)
  let high := max high0 (max open_price close_price)
  let low := min low0 (min open_price close_price)
  let ts := start_ts + (h : ℤ) * 3600 * 1000
  let candle : Candle :=
    { open_time := ts, open_price := round2 open_price, high := round2 high,
      low := round2 low, close := round2 close_price,
      volume := round2 (500 + (5000 - 500) * rs.u_vol h), close_time := ts + 3599999 }
  let price1 := close_price
  let price2 :=
    if price1 > 80000 then price1 * 0.9999
    else if price1 < 20000 then price1 * 1.0001
    else price1
  (candle, { price := price2, regime := regime, duration := duration })

/-- The hourly loop: `n` remaining iterations starting at hour index `h`. -/
def gen_from (rs : DrawStreams) : ℕ → ℕ → GenState → List Candle
  | _, 0, _ => []
  | h, Nat.succ n, st =>
    let cs := gen_candle rs h st
    cs.1 :: gen_from rs (h + 1) n cs.2

/-- Model of `src/backtest.py`: `generate_realistic_btc_data(days, seed)`; the seed is
represented by the draw streams it induces.  Starting price 42000, initial
regime `bull_trend`, `hours = days * 24`. -/
def generate_realistic_btc_data (rs : DrawStreams) (days : ℕ) : List Candle :=
  gen_from rs 0 (days * 24) { price := 42000, regime := 0, duration := 0 }

end Backtest

namespace BacktestCombined

/-- Coefficient `a1` of the Abramowitz-Stegun polynomial in `normal_cdf`
(`src/backtest_combined.py`; `src/experiment_timed_exit.py` has the textually
identical definition). -/
noncomputable def a1 : ℝ := 0.254829592

/-- Coefficient `a2` of the Abramowitz-Stegun polynomial. -/
noncomputable def a2 : ℝ := -0.284496736

/-- Coefficient `a3` of the Abramowitz-Stegun polynomial. -/
noncomputable def a3 : ℝ := 1.421413741

/-- Coefficient `a4` of the Abramowitz-Stegun polynomial. -/
noncomputable def a4 : ℝ := -1.453152027

/-- Coefficient `a5` of the Abramowitz-Stegun polynomial. -/
noncomputable def a5 : ℝ := 1.061405429

/-- Constant `p = 0.3275911` of the Abramowitz-Stegun approximation. -/
noncomputable def p : ℝ := 0.3275911

/-- The Horner product `(((((a5*t + a4)*t) + a3)*t + a2)*t + a1) * t`
appearing in `normal_cdf`. -/
noncomputable def cdf_poly (t : ℝ) : ℝ :=
  (((((a5 * t + a4) * t) + a3) * t + a2) * t + a1) * t

/-- Model of `src/backtest_combined.py`: `normal_cdf(x)` — the Abramowitz-Stegun
polynomial approximation of the standard normal CDF. -/
noncomputable def normal_cdf (x : ℝ) : ℝ :=
  let sign : ℝ := if x < 0 then -1 else 1
  let x' := |x|
  let y := 1 - cdf_poly (1 / (1 + p * x')) * Real.exp (-x' * x' / 2)
  0.5 * (1 + sign * y)

/-- The tail term `cdf_poly(t(x)) * exp(-x^2/2)` of `normal_cdf`, as a
function of the (nonnegative) argument `x`; `normal_cdf x = 1 - tail x / 2`
for `x ≥ 0` and `normal_cdf x = tail (-x) / 2` for `x < 0`. -/
noncomputable def cdf_tail (x : ℝ) : ℝ :=
  cdf_poly (1 / (1 + p * x)) * Real.exp (-x * x / 2)

/-- Model of `src/backtest_combined.py`: `estimate_fair_value(price, strike, vol,
mins_remaining)` (identical in `src/experiment_timed_exit.py`). -/
noncomputable def estimate_fair_value (price strike vol mins_remaining : ℝ) : ℝ :=
  if vol ≤ 0 ∨ mins_remaining ≤ 0 then (if price > strike then 1 else 0)
  else
    let time_hours := max mins_remaining 0.5 / 60
    let expected_move := price * (vol / 100) * Real.sqrt time_hours
    if expected_move ≤ 0 then (if price ≥ strike then 0.99 else 0.01)
    else
      let z := (price - strike) / expected_move
      max 0.01 (min 0.99 (normal_cdf z))

end BacktestCombined

namespace ExperimentConservative

/-- The file `src/experiment_conservative.py` redefines `calc_sma` identically to
`src/backtest.py`; the embedding is shared. -/
def calc_sma : List Candle → ℕ → ℚ := Backtest.calc_sma

/-- Function `calc_volatility`, identical to `src/backtest.py`. -/
def calc_volatility : Candle → ℚ := Backtest.calc_volatility

/-- Function `calc_price_position`, identical to `src/backtest.py`. -/
def calc_price_position : Candle → ℚ := Backtest.calc_price_position

/-- Function `calc_strike`, identical to `src/backtest.py`. -/
def calc_strike : ℚ → String → ℚ := Backtest.calc_strike

/-- Function `calc_net_pnl`, identical to `src/backtest.py`. -/
def calc_net_pnl : ℚ → ℚ → ℚ → String → ℚ := Backtest.calc_net_pnl

/-- Function `calc_risk_of_ruin` (`src/experiment_conservative.py` lines 131-144),
identical to `src/backtest.py` lines 190-211 up to the inline conditional. -/
noncomputable def calc_risk_of_ruin : ℚ → ℚ → ℚ → ℚ → ℚ := Backtest.calc_risk_of_ruin

/-- Function `estimate_contract_price`, identical to `src/backtest.py`. -/
def estimate_contract_price : ℚ → ℚ → ℚ := Backtest.estimate_contract_price

/-- Model of `src/experiment_conservative.py`: `estimate_fair_value` — note this file
approximates the normal CDF by a coarse 10-bucket z-score lookup, unlike the
continuous `normal_cdf` of `src/backtest_combined.py`. -/
noncomputable def estimate_fair_value (price strike vol mins_remaining : ℚ) : ℚ :=
  if vol ≤ 0 ∨ mins_remaining ≤ 0 then (if price > strike then 1 else 0)
  else
    let distance : ℝ := (price : ℝ) - (strike : ℝ)
    let time_hours : ℝ := (mins_remaining : ℝ) / 60
    let expected_move : ℝ :=
      (price : ℝ) * ((vol : ℝ) / 100) * Real.sqrt (max time_hours 0.01)
    let z : ℝ := if expected_move > 0 then distance / expected_move else 0
    if z ≤ -3 then 0.001
    else if z ≤ -2 then 0.02
    else if z ≤ -1 then 0.16
    else if z ≤ -0.5 then 0.31
    else if z ≤ 0 then 0.50
    else if z ≤ 0.5 then 0.69
    else if z ≤ 1 then 0.84
    else if z ≤ 1.5 then 0.93
    else if z ≤ 2 then 0.98
    else 0.99

/-- The `params` dict driving `check_signal` / `run_variant`; `None` values
and absent keys are both modelled by `Option.none`. -/
structure Params where
  min_time_remaining : ℚ
  sma_looseness : Option ℚ
  vol_filter : String
  pos_filter : String
  strike_type : String
  min_strike_distance : ℚ
  min_probability : ℚ
  max_probability : Option ℚ
  edge_cushion : ℚ
  max_entry_cap : Option ℚ
  position_size : ℚ
  use_exit_logic : Bool

/-- The fields of the `signal: True` dict returned by `check_signal`. -/
structure Sig where
  strike : ℚ
  entry_price : ℚ
  contracts : ℤ
  fair_value : ℚ
  volatility : ℚ
  deriving DecidableEq, Repr

/-- The volatility-filter `elif` chain of `check_signal`, as a predicate:
`false` exactly when the chain executes `return {"signal": False}` (an
unrecognised filter string passes, as in the source). -/
def vol_filter_ok (vf : String) (vol : ℚ) : Bool :=
  if vf = "0.5-2" then decide (0.5 ≤ vol ∧ vol ≤ 2.0)
  else if vf = "0.3-2.5" then decide (0.3 ≤ vol ∧ vol ≤ 2.5)
  else if vf = "0.5-1.5" then decide (0.5 ≤ vol ∧ vol ≤ 1.5)
  else if vf = "0.3-3" then decide (0.3 ≤ vol ∧ vol ≤ 3.0)
  else if vf = "0.5-3" then decide (0.5 ≤ vol ∧ vol ≤ 3.0)
  else true

/-- The price-position-filter `elif` chain of `check_signal`. -/
def pos_filter_ok (pf : String) (pos : ℚ) : Bool :=
  if pf = ">40" then decide (pos > 40)
  else if pf = ">50" then decide (pos > 50)
  else if pf = ">60" then decide (pos > 60)
  else if pf = ">70" then decide (pos > 70)
  else true

/-- Model of `src/experiment_conservative.py`: `check_signal(candles, current_price,
minute, params)`; `none` models every `return {"signal": False}` early exit. -/
noncomputable def check_signal (candles : List Candle) (current_price minute : ℚ)
    (params : Params) : Option Sig :=
  let mins_remaining := 60 - minute
  if mins_remaining ≤ params.min_time_remaining then none
  else
  let sma3 := calc_sma candles 3
  let sma6 := calc_sma candles 6
  let sma12 := calc_sma candles 12
  if sma3 = 0 ∨ sma6 = 0 ∨ sma12 = 0 then none
  else
  let vol := calc_volatility (candles.getLastD default)
  let pos := calc_price_position (candles.getLastD default)
  let trends : Bool × Bool :=
    match params.sma_looseness with
    | none => (true, true)
    | some sl =>
      if sl = 0 then (decide (sma3 > sma6), decide (sma6 > sma12))
      else
        (decide (sma3 > sma6) || (decide (sma6 > 0) && decide ((sma6 - sma3) / sma6 < sl)),
         decide (sma6 > sma12) || (decide (sma12 > 0) && decide ((sma12 - sma6) / sma12 < sl)))
  if trends.1 = false ∨ trends.2 = false then none
  else
  if vol_filter_ok params.vol_filter vol = false then none
  else
  if pos_filter_ok params.pos_filter pos = false then none
  else
  let strike := calc_strike current_price params.strike_type
  let strike_dist := current_price - strike
  if strike_dist < params.min_strike_distance then none
  else
  let fv := estimate_fair_value current_price strike vol mins_remaining
  if fv < params.min_probability then none
  else
  if (match params.max_probability with | some mp => decide (fv > mp) | none => false) then none
  else
  let max_entry0 := ((⌊fv * params.edge_cushion * 100⌋ : ℤ) : ℚ) / 100
  let max_entry :=
    match params.max_entry_cap with
    | some cap => min max_entry0 cap
    | none => max_entry0
  if max_entry > 0.95 then none
  else
  let contracts := if max_entry > 0 then ⌊params.position_size / max_entry⌋ else 0
  if contracts ≤ 0 then none
  else some { strike := strike, entry_price := max_entry, contracts := contracts,
              fair_value := fv, volatility := vol }

/-- Outcome strings of `simulate_trade` in `src/experiment_conservative.py`
(this variant folds all early exits into one `"early_exit"` string). -/
inductive COutcome where
  | no_data
  | win
  | loss
  | early_exit
  deriving DecidableEq, Repr

/-- Result dict of `simulate_trade` in `src/experiment_conservative.py`. -/
structure CTradeResult where
  outcome : COutcome
  pnl : ℚ
  deriving DecidableEq, Repr

/-- Model of `src/experiment_conservative.py`: `simulate_trade(entry_price, strike,
contracts, candles_after, volatility, use_exit_logic)`.  As in the
`backtest.py` variant, the pure late-checkpoint quantities are hoisted out of
the `late_ror >= 0.3` guard. -/
noncomputable def simulate_trade (entry_price strike : ℚ) (contracts : ℤ)
    (candles_after : List Candle) (volatility : ℚ) (use_exit_logic : Bool) : CTradeResult :=
  match candles_after with
  | [] => { outcome := .no_data, pnl := 0 }
  | settlement_candle :: _ =>
    let settlement_price := settlement_candle.close
    if use_exit_logic = false then
      if settlement_price > strike then
        { outcome := .win, pnl := calc_net_pnl contracts entry_price 1 "settlement" }
      else
        { outcome := .loss, pnl := calc_net_pnl contracts entry_price 0 "settlement" }
    else
      let mid_price := (settlement_candle.open_price + settlement_candle.close) / 2
      let distance_mid := mid_price - strike
      let ror := calc_risk_of_ruin mid_price strike volatility 30
      let implied_price := estimate_contract_price distance_mid 30
      let early_exit_pnl := calc_net_pnl contracts entry_price implied_price "early"
      let settle_win_pnl := calc_net_pnl contracts entry_price 1 "settlement"
      let settle_lose_pnl := calc_net_pnl contracts entry_price 0 "settlement"
      let settle_ev := (1 - ror) * settle_win_pnl + ror * settle_lose_pnl
      if ror ≥ 0.5 then { outcome := .early_exit, pnl := early_exit_pnl }
      else if settle_ev < early_exit_pnl ∧ early_exit_pnl > 0 then
        { outcome := .early_exit, pnl := early_exit_pnl }
      else
        let late_price := settlement_candle.close
        let late_ror := calc_risk_of_ruin late_price strike volatility 10
        let late_implied := estimate_contract_price (late_price - strike) 10
        let late_exit_pnl := calc_net_pnl contracts entry_price late_implied "early"
        let late_settle_ev := (1 - late_ror) * settle_win_pnl + late_ror * settle_lose_pnl
        if late_ror ≥ 0.3 ∧ late_settle_ev ≤ late_exit_pnl * 1.2 then
          { outcome := .early_exit, pnl := late_exit_pnl }
        else if settlement_price > strike then
          { outcome := .win, pnl := calc_net_pnl contracts entry_price 1 "settlement" }
        else
          { outcome := .loss, pnl := calc_net_pnl contracts entry_price 0 "settlement" }

/-- The per-path mutable state of the `run_variant` loop in
`src/experiment_conservative.py`. -/
structure RunState where
  trades : ℕ
  wins : ℕ
  losses : ℕ
  early_exits : ℕ
  total_pnl : ℚ
  max_dd : ℚ
  peak_pnl : ℚ
  bankroll : ℚ
  peak_bank : ℚ
  min_bankroll : ℚ
  ruin_hit : Bool
  losing_streak : ℕ
  max_losing_streak : ℕ
  deriving DecidableEq, Repr

/-- The initial `run_variant` state: bankroll 100, no trades, `ruin_hit = False`. -/
def init_state : RunState :=
  { trades := 0, wins := 0, losses := 0, early_exits := 0, total_pnl := 0,
    max_dd := 0, peak_pnl := 0, bankroll := 100, peak_bank := 100,
    min_bankroll := 100, ruin_hit := false, losing_streak := 0,
    max_losing_streak := 0 }

/-- One iteration of the `run_variant` loop body at candle index `i`
(`src/experiment_conservative.py` lines 347-391): evaluate the signal, mark
ruin and skip the trade if the bankroll cannot cover half the position size,
otherwise simulate the trade and update the statistics that the source
mutates in place. -/
noncomputable def step (params : Params) (candles : List Candle) (i : ℕ)
    (s : RunState) : RunState :=
  let candle := candles.getD i default
  let current_price := candle.close
  let history := (candles.drop (i - 12)).take (i + 1 - (i - 12))
  match check_signal history current_price 30 params with
  | none => s
  | some sig =>
    if s.bankroll < params.position_size * 0.5 then { s with ruin_hit := true }
    else
      let result := simulate_trade sig.entry_price sig.strike sig.contracts
        ((candles.drop (i + 1)).take 2) sig.volatility params.use_exit_logic
      if result.outcome = .no_data then s
      else
        let pnl := result.pnl
        let total_pnl := s.total_pnl + pnl
        let bankroll := s.bankroll + pnl
        let early_exits := if result.outcome = .early_exit then s.early_exits + 1 else s.early_exits
        let wins := if pnl ≥ 0 then s.wins + 1 else s.wins
        let losses := if pnl ≥ 0 then s.losses else s.losses + 1
        let losing_streak := if pnl ≥ 0 then 0 else s.losing_streak + 1
        let max_losing_streak :=
          if losing_streak > s.max_losing_streak then losing_streak else s.max_losing_streak
        let peak_pnl := if total_pnl > s.peak_pnl then total_pnl else s.peak_pnl
        let dd := peak_pnl - total_pnl
        let max_dd := if dd > s.max_dd then dd else s.max_dd
        let peak_bank := if bankroll > s.peak_bank then bankroll else s.peak_bank
        let min_bankroll := if bankroll < s.min_bankroll then bankroll else s.min_bankroll
        { trades := s.trades + 1, wins := wins, losses := losses,
          early_exits := early_exits, total_pnl := total_pnl, max_dd := max_dd,
          peak_pnl := peak_pnl, bankroll := bankroll, peak_bank := peak_bank,
          min_bankroll := min_bankroll, ruin_hit := s.ruin_hit,
          losing_streak := losing_streak, max_losing_streak := max_losing_streak }

/-- Folding the `run_variant` loop body over a list of candle indices. -/
noncomputable def runSteps (params : Params) (candles : List Candle)
    (idxs : List ℕ) (s : RunState) : RunState :=
  idxs.foldl (fun st i => step params candles i st) s

/-- The dict returned by `run_variant`. -/
structure VariantResult where
  trades : ℕ
  wins : ℕ
  losses : ℕ
  win_rate : ℚ
  total_pnl : ℚ
  max_dd : ℚ
  expectancy : ℚ
  early_exits : ℕ
  final_bankroll : ℚ
  min_bankroll : ℚ
  ruin_hit : Bool
  max_losing_streak : ℕ
  calmar : ℚ

/-- Model of `src/experiment_conservative.py`: `run_variant(candles, params)` — the
loop over `range(12, len(candles) - 1)` followed by the derived statistics. -/
noncomputable def run_variant (candles : List Candle) (params : Params) : VariantResult :=
  let s := runSteps params candles (List.range' 12 (candles.length - 1 - 12)) init_state
  { trades := s.trades, wins := s.wins, losses := s.losses,
    win_rate := if s.trades > 0 then (s.wins : ℚ) / s.trades * 100 else 0,
    total_pnl := s.total_pnl, max_dd := s.max_dd,
    expectancy := if s.trades > 0 then s.total_pnl / s.trades else 0,
    early_exits := s.early_exits, final_bankroll := s.bankroll,
    min_bankroll := s.min_bankroll, ruin_hit := s.ruin_hit,
    max_losing_streak := s.max_losing_streak,
    calmar := if s.max_dd > 0 then s.total_pnl / s.max_dd
              else (if s.total_pnl > 0 then 999 else 0) }

end ExperimentConservative

namespace BacktestInterwindow

/-- A 5-minute candle record `{t, o, h, l, c, v}` from the historical-data
JSON consumed by `src/backtest_interwindow.py` (`t` in milliseconds). -/
structure Candle5m where
  t : ℤ
  o : ℚ
  h : ℚ
  l : ℚ
  c : ℚ
  v : ℚ
  deriving DecidableEq, Repr

/-- The 15-minute bucket key of a candle: `((t // 1000) // 900) * 900`
(Python `//` is floor division, `Int.fdiv` here). -/
def window_start (c : Candle5m) : ℤ := ((c.t.fdiv 1000).fdiv 900) * 900

/-- A grouped 15-minute window dict (`ts`, `open`, `close`, `candles`,
`avg_vol`, `bb_width_proxy`); the dict key `open` is the field
`open_price`. -/
structure Window where
  ts : ℤ
  open_price : ℚ
  close : ℚ
  candles : List Candle5m
  avg_vol : ℚ
  bb_width_proxy : ℚ
  deriving DecidableEq, Repr

/-- The bucket of a 15-minute key: all candles mapping to `ws`, in input
order (Python appends in iteration order), then sorted by `t` as the source
does with `sorted(buckets[ws], key on the field t)`.  The Python `sorted` is
a stable sort, and on a decidable total preorder the stable-sorted output is
unique, so the structurally recursive `insertionSort` is an exact model. -/
def bucket (candles : List Candle5m) (ws : ℤ) : List Candle5m :=
  List.insertionSort (fun u w => u.t ≤ w.t) (candles.filter (fun c => window_start c = ws))

/-- The body of the `for ws in sorted(buckets.keys())` loop: a window is
built if and only if the sorted bucket has exactly 3 candles
(`if len(cs) == 3`). -/
def mk_window (ws : ℤ) (cs : List Candle5m) : Option Window :=
  match cs with
  | [c0, c1, c2] =>
    let avg_vol := (c0.v + c1.v + c2.v) / 3
    let prices := [c0.o, c1.o, c2.o, c0.c, c1.c, c2.c]
    let price_range := prices.foldl max c0.o - prices.foldl min c0.o
    let mid_close := c1.c
    let bb_width_proxy := if mid_close > 0 then price_range / mid_close else 0
    some { ts := ws, open_price := c0.o, close := c2.c, candles := [c0, c1, c2],
           avg_vol := avg_vol, bb_width_proxy := bb_width_proxy }
  | _ => none

/-- Model of `src/backtest_interwindow.py`: `group_15min_windows(candles)` — bucket the
5-minute candles by 15-minute window start, iterate the keys in ascending
order, and emit a window for every bucket of exactly 3 candles. -/
def group_15min_windows (candles : List Candle5m) : List Window :=
  let keys := List.insertionSort (fun a b => a ≤ b) ((candles.map window_start).dedup)
  keys.filterMap (fun ws => mk_window ws (bucket candles ws))

end BacktestInterwindow

/-! Concrete fixtures used by the witness theorems. -/

/-- A flat settlement candle at 150, used to exercise `simulate_trade`. -/
def c1_candle : Candle :=
  { open_time := 0, open_price := 150, high := 150, low := 150, close := 150,
    volume := 1000, close_time := 0 }

/-- One plain history candle with the given close, for the `c7_window`
fixture. -/
def c7_mk (cl : ℚ) : Candle :=
  { open_time := 0, open_price := 40000, high := 40200, low := 40000,
    close := cl, volume := 1000, close_time := 0 }

/-- A 13-candle uptrend window on which `check_conservative` fires during
market hours with strike distance 120. -/
def c7_window : List Candle :=
  [c7_mk 40000, c7_mk 40010, c7_mk 40020, c7_mk 40030, c7_mk 40040, c7_mk 40050,
   c7_mk 40060, c7_mk 40070, c7_mk 40080, c7_mk 40090, c7_mk 40100, c7_mk 40110,
   { open_time := 0, open_price := 40100, high := 40130, low := 39800,
     close := 40120, volume := 1000, close_time := 0 }]

/-- Four 5-minute candles: three fill the 15-minute bucket at 0, a lone one
sits in the incomplete bucket at 900. -/
def c9_candles : List BacktestInterwindow.Candle5m :=
  [⟨0, 1, 2, 0, 1, 10⟩, ⟨300000, 1, 2, 0, 1, 10⟩,
   ⟨600000, 3, 4, 1, 2, 12⟩, ⟨900000, 1, 2, 0, 1, 10⟩]

instance : Inhabited BacktestInterwindow.Window := ⟨⟨0, 0, 0, [], 0, 0⟩⟩

/-- The (unique) window grouped from `c9_candles`. -/
def c9_w0 : BacktestInterwindow.Window :=
  (BacktestInterwindow.group_15min_windows c9_candles).getD 0 default

/-- A conservative parameter set with position size 10. -/
def c6_params : ExperimentConservative.Params :=
  { min_time_remaining := 5, sma_looseness := some 0.001, vol_filter := "0.5-2",
    pos_filter := ">60", strike_type := "OTM", min_strike_distance := 0,
    min_probability := 0.7, max_probability := none, edge_cushion := 0.95,
    max_entry_cap := none, position_size := 10, use_exit_logic := true }

/-- A run state whose bankroll (1) is below half the position size (5). -/
def c6_state : ExperimentConservative.RunState :=
  { ExperimentConservative.init_state with bankroll := 1 }

/-- All-zero draw streams (a degenerate but admissible realisation). -/
def c4_streams : Backtest.DrawStreams :=
  ⟨fun _ => 0, fun _ => 0, fun _ => 0, fun _ => 0, fun _ => 0, fun _ => 0, fun _ => 0⟩

/-- The first candle generated from the all-zero streams over one day. -/
def c4_candle : Candle :=
  (Backtest.generate_realistic_btc_data c4_streams 1).getD 0 default

end MarketWatch

open MarketWatch

/-- When the z-score exceeds 2, `calc_risk_of_ruin` lands in the last bucket. -/
lemma ror_big_z (cp s v m : ℚ)
    (hem : 0 < (cp : ℝ) * ((v : ℝ) / 100) * Real.sqrt (max ((m : ℝ) / 60) 0.01))
    (hz : 2 * ((cp : ℝ) * ((v : ℝ) / 100) * Real.sqrt (max ((m : ℝ) / 60) 0.01))
            < (cp : ℝ) - (s : ℝ)) :
    Backtest.calc_risk_of_ruin cp s v m = 0.01 := by
  have h2 : (2 : ℝ) < ((cp : ℝ) - (s : ℝ)) /
      ((cp : ℝ) * ((v : ℝ) / 100) * Real.sqrt (max ((m : ℝ) / 60) 0.01)) := by
    rw [lt_div_iff₀ hem]; linarith
  simp only [Backtest.calc_risk_of_ruin, if_pos hem]
  split_ifs with g1 g2 g3 g4 g5 g6 g7 g8 <;> first | rfl | linarith

/-- Positivity and a unit bound for the clamped square root of the
time-to-expiry factor. -/
lemma sqrt_blk (m : ℚ) (h0 : (0:ℝ) < max ((m : ℝ) / 60) 0.01)
    (h1 : max ((m : ℝ) / 60) 0.01 ≤ 1) :
    0 < Real.sqrt (max ((m : ℝ) / 60) 0.01) ∧ Real.sqrt (max ((m : ℝ) / 60) 0.01) ≤ 1 := by
  refine ⟨Real.sqrt_pos.2 h0, ?_⟩
  rw [show (1:ℝ) = Real.sqrt 1 from (Real.sqrt_one).symm]
  exact Real.sqrt_le_sqrt h1

/-- With price 150, strike 100, volatility 1% and 30 minutes left, the
z-score is far beyond 2. -/
lemma ror150_30 : Backtest.calc_risk_of_ruin 150 100 1 30 = 0.01 := by
  obtain ⟨hp, hle⟩ := sqrt_blk 30 (by norm_num) (by norm_num)
  apply ror_big_z <;> push_cast <;> nlinarith [hp, hle]

/-- As `ror150_30` at the 10-minutes-remaining checkpoint. -/
lemma ror150_10 : Backtest.calc_risk_of_ruin 150 100 1 10 = 0.01 := by
  obtain ⟨hp, hle⟩ := sqrt_blk 10 (by norm_num) (by norm_num)
  apply ror_big_z <;> push_cast <;> nlinarith [hp, hle]

/-- On the flat 150-candle with strike 100, no checkpoint exits and the
trade settles as a win. -/
lemma c1_win :
    (Backtest.simulate_trade (3/5) 100 16 [c1_candle] 1).outcome = Backtest.Outcome.win := by
  simp only [Backtest.simulate_trade, c1_candle]
  rw [show ((150 : ℚ) + 150) / 2 = 150 by norm_num]
  rw [ror150_30, ror150_10]
  simp only [Backtest.calc_net_pnl,
    if_neg (show ¬ ("settlement" : String) = "early" from by decide),
    if_pos (show ("early" : String) = "early" from rfl)]
  norm_num [Backtest.estimate_contract_price, Backtest.TAKER_FEE_PCT]

/-- The Abramowitz-Stegun polynomial is nonnegative on [0, 1]. -/
lemma cdf_poly_nonneg {t : ℝ} (h0 : 0 ≤ t) (h1 : t ≤ 1) :
    0 ≤ BacktestCombined.cdf_poly t := by
  unfold BacktestCombined.cdf_poly BacktestCombined.a1 BacktestCombined.a2
    BacktestCombined.a3 BacktestCombined.a4 BacktestCombined.a5
  nlinarith [sq_nonneg t, sq_nonneg (t - 1), sq_nonneg (t*t - t), mul_nonneg h0 h0,
    sq_nonneg (t*t - 0.7*t), mul_nonneg (mul_nonneg h0 h0) h0]

/-- The Abramowitz-Stegun polynomial is at most 1 on [0, 1]. -/
lemma cdf_poly_le_one {t : ℝ} (h0 : 0 ≤ t) (h1 : t ≤ 1) :
    BacktestCombined.cdf_poly t ≤ 1 := by
  unfold BacktestCombined.cdf_poly BacktestCombined.a1 BacktestCombined.a2
    BacktestCombined.a3 BacktestCombined.a4 BacktestCombined.a5
  nlinarith [sq_nonneg t, sq_nonneg (t - 1), sq_nonneg (t*t - t), mul_nonneg h0 h0,
    mul_nonneg (mul_nonneg h0 h0) h0, sq_nonneg (t*t - 0.7*t)]

/-- The Abramowitz-Stegun polynomial is monotone on [0, 1]. -/
lemma cdf_poly_mono {s t : ℝ} (hs : 0 ≤ s) (hst : s ≤ t) (ht : t ≤ 1) :
    BacktestCombined.cdf_poly s ≤ BacktestCombined.cdf_poly t := by
  unfold BacktestCombined.cdf_poly BacktestCombined.a1 BacktestCombined.a2
    BacktestCombined.a3 BacktestCombined.a4 BacktestCombined.a5
  nlinarith [mul_nonneg hs (sub_nonneg.2 hst), sq_nonneg (s + t), sq_nonneg (s - t),
    sq_nonneg (s*t - 0.5*(s+t)), mul_nonneg (mul_nonneg hs hs) hs,
    mul_nonneg (sub_nonneg.2 hst) (sq_nonneg (s+t-1)),
    mul_nonneg (sub_nonneg.2 hst) (sq_nonneg (s*t - 0.3)),
    mul_nonneg (mul_nonneg (sub_nonneg.2 hst) hs) hs,
    sub_nonneg.2 hst, sub_nonneg.2 ht, mul_nonneg hs hs]

/-- The denominator `1 + p * x` is positive for nonnegative `x`. -/
lemma cdf_denom_pos (x : ℝ) (hx : 0 ≤ x) : 0 < 1 + BacktestCombined.p * x := by
  unfold BacktestCombined.p; nlinarith

/-- The substitution `t = 1/(1+p*x)` lands in [0, 1] for `x ≥ 0`. -/
lemma cdf_t_mem (x : ℝ) (hx : 0 ≤ x) :
    0 ≤ 1 / (1 + BacktestCombined.p * x) ∧ 1 / (1 + BacktestCombined.p * x) ≤ 1 := by
  constructor
  · exact le_of_lt (div_pos one_pos (cdf_denom_pos x hx))
  · rw [div_le_one (cdf_denom_pos x hx)]
    unfold BacktestCombined.p; nlinarith

/-- The tail term of `normal_cdf` is nonnegative on [0, ∞). -/
lemma cdf_tail_nonneg (x : ℝ) (hx : 0 ≤ x) : 0 ≤ BacktestCombined.cdf_tail x := by
  obtain ⟨h0, h1⟩ := cdf_t_mem x hx
  exact mul_nonneg (cdf_poly_nonneg h0 h1) (Real.exp_pos _).le

/-- The tail term of `normal_cdf` is at most 1 on [0, ∞). -/
lemma cdf_tail_le_one (x : ℝ) (hx : 0 ≤ x) : BacktestCombined.cdf_tail x ≤ 1 := by
  obtain ⟨h0, h1⟩ := cdf_t_mem x hx
  have hp := cdf_poly_le_one h0 h1
  have he : Real.exp (-x * x / 2) ≤ 1 := Real.exp_le_one_iff.2 (by nlinarith [mul_self_nonneg x])
  exact mul_le_one₀ hp (Real.exp_pos _).le he

/-- The tail term of `normal_cdf` is antitone on [0, ∞). -/
lemma cdf_tail_anti {x y : ℝ} (hx : 0 ≤ x) (hxy : x ≤ y) :
    BacktestCombined.cdf_tail y ≤ BacktestCombined.cdf_tail x := by
  have hy : 0 ≤ y := le_trans hx hxy
  obtain ⟨hx0, hx1⟩ := cdf_t_mem x hx
  obtain ⟨hy0, hy1⟩ := cdf_t_mem y hy
  have hpp : (0:ℝ) < BacktestCombined.p := by unfold BacktestCombined.p; norm_num
  have ht : 1 / (1 + BacktestCombined.p * y) ≤ 1 / (1 + BacktestCombined.p * x) :=
    one_div_le_one_div_of_le (cdf_denom_pos x hx) (by nlinarith)
  exact mul_le_mul (cdf_poly_mono hy0 ht hx1)
    (Real.exp_le_exp.2 (by nlinarith)) (Real.exp_pos _).le (cdf_poly_nonneg hx0 hx1)

/-- For `x ≥ 0`, `normal_cdf x = 1 - tail x / 2`. -/
lemma normal_cdf_of_nonneg {x : ℝ} (hx : 0 ≤ x) :
    BacktestCombined.normal_cdf x = 1 - BacktestCombined.cdf_tail x / 2 := by
  unfold BacktestCombined.normal_cdf BacktestCombined.cdf_tail
  rw [if_neg (not_lt.2 hx), abs_of_nonneg hx]
  ring

/-- For `x < 0`, `normal_cdf x = tail (-x) / 2`. -/
lemma normal_cdf_of_neg {x : ℝ} (hx : x < 0) :
    BacktestCombined.normal_cdf x = BacktestCombined.cdf_tail (-x) / 2 := by
  unfold BacktestCombined.normal_cdf BacktestCombined.cdf_tail
  rw [if_pos hx, abs_of_neg hx]
  ring

/-- The Abramowitz-Stegun `normal_cdf` is monotone on all of ℝ. -/
lemma normal_cdf_mono : Monotone BacktestCombined.normal_cdf := by
  intro x y hxy
  rcases lt_or_le x 0 with hx | hx
  · rcases lt_or_le y 0 with hy | hy
    · rw [normal_cdf_of_neg hx, normal_cdf_of_neg hy]
      have h := cdf_tail_anti (neg_nonneg.2 hy.le) (by linarith : -y ≤ -x)
      linarith
    · rw [normal_cdf_of_neg hx, normal_cdf_of_nonneg hy]
      have h1 : BacktestCombined.cdf_tail (-x) ≤ 1 := cdf_tail_le_one _ (by linarith)
      have h2 : 0 ≤ BacktestCombined.cdf_tail (-x) := cdf_tail_nonneg _ (by linarith)
      have h3 : 0 ≤ BacktestCombined.cdf_tail y := cdf_tail_nonneg _ hy
      have h4 : BacktestCombined.cdf_tail y ≤ 1 := cdf_tail_le_one _ hy
      linarith
  · rw [normal_cdf_of_nonneg hx, normal_cdf_of_nonneg (le_trans hx hxy)]
    have h := cdf_tail_anti hx hxy
    linarith

/-- Counterexample to Claim C5 as stated: at strike 0 (the claim quantifies
over every fixed strike), vol 100 and 60 minutes, the fair value at price 0
takes the `expected_move <= 0` branch and returns 0.99, while at the larger
price 1 it returns `normal_cdf 1 < 0.99` — so the function is not monotone
non-decreasing in price for every fixed strike. -/
theorem claim5_counterexample :
    (0:ℝ) ≤ 1
    ∧ BacktestCombined.estimate_fair_value 1 0 100 60
        < BacktestCombined.estimate_fair_value 0 0 100 60 := by
  refine ⟨by norm_num, ?_⟩
  have h099 : BacktestCombined.estimate_fair_value 0 0 100 60 = 0.99 := by
    unfold BacktestCombined.estimate_fair_value
    rw [if_neg (by norm_num), if_pos (by simp), if_pos (le_refl (0:ℝ))]
  have hcdf : BacktestCombined.normal_cdf 1 < 0.99 := by
    rw [normal_cdf_of_nonneg (by norm_num : (0:ℝ) ≤ 1)]
    have htail : (0.02:ℝ) < BacktestCombined.cdf_tail 1 := by
      unfold BacktestCombined.cdf_tail
      have hexp : (1/2 : ℝ) ≤ Real.exp (-1 * 1 / 2) := by
        have h := Real.add_one_le_exp (-1 * 1 / 2 : ℝ)
        linarith
      have hpoly : (0.04 : ℝ) < BacktestCombined.cdf_poly (1 / (1 + BacktestCombined.p * 1)) := by
        unfold BacktestCombined.cdf_poly BacktestCombined.a1 BacktestCombined.a2
          BacktestCombined.a3 BacktestCombined.a4 BacktestCombined.a5 BacktestCombined.p
        norm_num
      nlinarith [hpoly, hexp, Real.exp_pos (-1 * 1 / 2 : ℝ)]
    linarith
  have hlt : BacktestCombined.estimate_fair_value 1 0 100 60 < 0.99 := by
    simp only [BacktestCombined.estimate_fair_value]
    rw [if_neg (by norm_num)]
    rw [show (max (60:ℝ) 0.5 / 60) = 1 by norm_num, Real.sqrt_one]
    rw [if_neg (by norm_num)]
    rw [show ((1:ℝ) - 0) / (1 * (100/100) * 1) = 1 by norm_num]
    exact max_lt (by norm_num) (lt_of_le_of_lt (min_le_right _ _) hcdf)
  rw [h099]
  exact hlt

/-- Claim C5 (amended): for every fixed strike > 0, volatility and
minutes_remaining, `estimate_fair_value` is monotone non-decreasing in price
(the z-score divides by the price itself, and the Abramowitz-Stegun CDF
approximation is monotone).  The restriction to positive strikes is forced by
`claim5_counterexample`: at strike ≤ 0 the `expected_move <= 0` fallback
breaks monotonicity. -/
theorem claim5_fair_value_monotone (strike vol mins p1 p2 : ℝ)
    (hs : 0 < strike) (hp : p1 ≤ p2) :
    BacktestCombined.estimate_fair_value p1 strike vol mins
      ≤ BacktestCombined.estimate_fair_value p2 strike vol mins := by
  unfold BacktestCombined.estimate_fair_value
  by_cases hb : vol ≤ 0 ∨ mins ≤ 0
  · rw [if_pos hb, if_pos hb]
    split_ifs with h1 h2
    · norm_num
    · exact absurd (lt_of_lt_of_le h1 hp) h2
    · norm_num
    · norm_num
  · rw [if_neg hb, if_neg hb]
    push_neg at hb
    obtain ⟨hv, hm⟩ := hb
    have hmaxpos : (0:ℝ) < max mins 0.5 / 60 :=
      div_pos (lt_max_of_lt_right (by norm_num)) (by norm_num)
    have hsq : 0 < Real.sqrt (max mins 0.5 / 60) := Real.sqrt_pos.2 hmaxpos
    rcases le_or_lt p2 0 with hp2 | hp2
    · have e1 : p1 * (vol / 100) * Real.sqrt (max mins 0.5 / 60) ≤ 0 :=
        mul_nonpos_of_nonpos_of_nonneg
          (mul_nonpos_of_nonpos_of_nonneg (by linarith) (by positivity)) hsq.le
      have e2 : p2 * (vol / 100) * Real.sqrt (max mins 0.5 / 60) ≤ 0 :=
        mul_nonpos_of_nonpos_of_nonneg
          (mul_nonpos_of_nonpos_of_nonneg hp2 (by positivity)) hsq.le
      rw [if_pos e1, if_pos e2, if_neg (by push_neg; linarith), if_neg (by push_neg; linarith)]
    · rcases le_or_lt p1 0 with hp1 | hp1
      · have e1 : p1 * (vol / 100) * Real.sqrt (max mins 0.5 / 60) ≤ 0 :=
          mul_nonpos_of_nonpos_of_nonneg
            (mul_nonpos_of_nonpos_of_nonneg hp1 (by positivity)) hsq.le
        have e2 : 0 < p2 * (vol / 100) * Real.sqrt (max mins 0.5 / 60) := by positivity
        rw [if_pos e1, if_neg (not_le.2 e2), if_neg (by push_neg; linarith)]
        exact le_max_left _ _
      · have e1 : 0 < p1 * (vol / 100) * Real.sqrt (max mins 0.5 / 60) := by positivity
        have e2 : 0 < p2 * (vol / 100) * Real.sqrt (max mins 0.5 / 60) := by positivity
        rw [if_neg (not_le.2 e1), if_neg (not_le.2 e2)]
        have hz : (p1 - strike) / (p1 * (vol / 100) * Real.sqrt (max mins 0.5 / 60))
            ≤ (p2 - strike) / (p2 * (vol / 100) * Real.sqrt (max mins 0.5 / 60)) := by
          rw [div_le_div_iff₀ e1 e2]
          have key : 0 ≤ strike * ((vol / 100) * Real.sqrt (max mins 0.5 / 60)) * (p2 - p1) :=
            mul_nonneg (mul_nonneg hs.le (by positivity)) (sub_nonneg.2 hp)
          nlinarith [key]
        exact max_le_max le_rfl (min_le_min le_rfl (normal_cdf_mono hz))

/-- Witness for Claim C5 at strike 100, vol 60, 30 minutes, prices 120 ≤ 130. -/
theorem claim5_fair_value_monotone_witness :
    BacktestCombined.estimate_fair_value 120 100 60 30
      ≤ BacktestCombined.estimate_fair_value 130 100 60 30 :=
  claim5_fair_value_monotone 100 60 30 120 130 (by norm_num) (by norm_num)

/-- At 60 minutes remaining the sqrt factor is 1 and the z-score of
`calc_risk_of_ruin` is exactly `(100 - strike)/100` for price 100, vol 100:
strike 400 gives z = -3 and the first bucket. -/
lemma ror_b1 : Backtest.calc_risk_of_ruin 100 400 100 60 = 0.98 := by
  simp only [Backtest.calc_risk_of_ruin]
  rw [show (max (((60:ℚ):ℝ) / 60) 0.01) = 1 by norm_num, Real.sqrt_one]
  norm_num

/-- Bucket 2: strike 250, z = -1.5. -/
lemma ror_b2 : Backtest.calc_risk_of_ruin 100 250 100 60 = 0.84 := by
  simp only [Backtest.calc_risk_of_ruin]
  rw [show (max (((60:ℚ):ℝ) / 60) 0.01) = 1 by norm_num, Real.sqrt_one]
  norm_num

/-- Bucket 3: strike 160, z = -0.6. -/
lemma ror_b3 : Backtest.calc_risk_of_ruin 100 160 100 60 = 0.69 := by
  simp only [Backtest.calc_risk_of_ruin]
  rw [show (max (((60:ℚ):ℝ) / 60) 0.01) = 1 by norm_num, Real.sqrt_one]
  norm_num

/-- Bucket 4: strike 120, z = -0.2. -/
lemma ror_b4 : Backtest.calc_risk_of_ruin 100 120 100 60 = 0.5 := by
  simp only [Backtest.calc_risk_of_ruin]
  rw [show (max (((60:ℚ):ℝ) / 60) 0.01) = 1 by norm_num, Real.sqrt_one]
  norm_num

/-- Bucket 5: strike 80, z = 0.2. -/
lemma ror_b5 : Backtest.calc_risk_of_ruin 100 80 100 60 = 0.31 := by
  simp only [Backtest.calc_risk_of_ruin]
  rw [show (max (((60:ℚ):ℝ) / 60) 0.01) = 1 by norm_num, Real.sqrt_one]
  norm_num

/-- Bucket 6: strike 30, z = 0.7. -/
lemma ror_b6 : Backtest.calc_risk_of_ruin 100 30 100 60 = 0.16 := by
  simp only [Backtest.calc_risk_of_ruin]
  rw [show (max (((60:ℚ):ℝ) / 60) 0.01) = 1 by norm_num, Real.sqrt_one]
  norm_num

/-- Bucket 7: strike -20, z = 1.2. -/
lemma ror_b7 : Backtest.calc_risk_of_ruin 100 (-20) 100 60 = 0.07 := by
  simp only [Backtest.calc_risk_of_ruin]
  rw [show (max (((60:ℚ):ℝ) / 60) 0.01) = 1 by norm_num, Real.sqrt_one]
  norm_num

/-- Bucket 8: strike -80, z = 1.8. -/
lemma ror_b8 : Backtest.calc_risk_of_ruin 100 (-80) 100 60 = 0.02 := by
  simp only [Backtest.calc_risk_of_ruin]
  rw [show (max (((60:ℚ):ℝ) / 60) 0.01) = 1 by norm_num, Real.sqrt_one]
  norm_num

/-- Bucket 9: strike -150, z = 2.5. -/
lemma ror_b9 : Backtest.calc_risk_of_ruin 100 (-150) 100 60 = 0.01 := by
  simp only [Backtest.calc_risk_of_ruin]
  rw [show (max (((60:ℚ):ℝ) / 60) 0.01) = 1 by norm_num, Real.sqrt_one]
  norm_num

/-- At the money (strike 100) the z-score is 0 and the bucket is 0.5. -/
lemma ror_atm : Backtest.calc_risk_of_ruin 100 100 100 60 = 0.5 := by
  simp only [Backtest.calc_risk_of_ruin]
  rw [show (max (((60:ℚ):ℝ) / 60) 0.01) = 1 by norm_num, Real.sqrt_one]
  norm_num

/-- Counterexample to Claim C8 as stated: no 8-element set of probabilities
contains the range of `calc_risk_of_ruin` — the source lookup has 8
thresholds and therefore 9 bands, and all 9 band probabilities are attained. -/
theorem claim8_counterexample :
    ¬ ∃ S : Finset ℚ, S.card = 8 ∧
      ∀ cp s v m : ℚ, Backtest.calc_risk_of_ruin cp s v m ∈ S := by
  rintro ⟨S, hcard, hall⟩
  have m1 : (0.98:ℚ) ∈ S := by rw [← ror_b1]; exact hall 100 400 100 60
  have m2 : (0.84:ℚ) ∈ S := by rw [← ror_b2]; exact hall 100 250 100 60
  have m3 : (0.69:ℚ) ∈ S := by rw [← ror_b3]; exact hall 100 160 100 60
  have m4 : (0.5:ℚ) ∈ S := by rw [← ror_b4]; exact hall 100 120 100 60
  have m5 : (0.31:ℚ) ∈ S := by rw [← ror_b5]; exact hall 100 80 100 60
  have m6 : (0.16:ℚ) ∈ S := by rw [← ror_b6]; exact hall 100 30 100 60
  have m7 : (0.07:ℚ) ∈ S := by rw [← ror_b7]; exact hall 100 (-20) 100 60
  have m8 : (0.02:ℚ) ∈ S := by rw [← ror_b8]; exact hall 100 (-80) 100 60
  have m9 : (0.01:ℚ) ∈ S := by rw [← ror_b9]; exact hall 100 (-150) 100 60
  have hsub : ({0.98, 0.84, 0.69, 0.5, 0.31, 0.16, 0.07, 0.02, 0.01} : Finset ℚ) ⊆ S := by
    intro x hx
    simp only [Finset.mem_insert, Finset.mem_singleton] at hx
    rcases hx with rfl|rfl|rfl|rfl|rfl|rfl|rfl|rfl|rfl <;> assumption
  have h9 : ({0.98, 0.84, 0.69, 0.5, 0.31, 0.16, 0.07, 0.02, 0.01} : Finset ℚ).card = 9 := by
    norm_num
  have hle := Finset.card_le_card hsub
  omega

/-- Claim C8 (amended): `calc_risk_of_ruin` buckets its z-score into 9
discrete bands (8 thresholds) with fixed probabilities — for every input it
returns one of exactly these 9 constants — and it is distinct from (not
derived from) the continuous normal-CDF fair-value model: at the money the
bucket gives exactly 0.5 while `1 - estimate_fair_value` gives
`0.4999999995`. -/
theorem claim8_risk_of_ruin_buckets :
    (∀ cp s v m : ℚ, Backtest.calc_risk_of_ruin cp s v m ∈
        ({0.98, 0.84, 0.69, 0.5, 0.31, 0.16, 0.07, 0.02, 0.01} : Finset ℚ))
    ∧ ((Backtest.calc_risk_of_ruin 100 100 100 60 : ℚ) : ℝ)
        ≠ 1 - BacktestCombined.estimate_fair_value 100 100 100 60 := by
  constructor
  · intro cp s v m
    simp only [Backtest.calc_risk_of_ruin]
    split_ifs <;> simp
  · have hpoly1 : BacktestCombined.cdf_poly 1 = 0.999999999 := by
      unfold BacktestCombined.cdf_poly BacktestCombined.a1 BacktestCombined.a2
        BacktestCombined.a3 BacktestCombined.a4 BacktestCombined.a5
      norm_num
    have htail0 : BacktestCombined.cdf_tail 0 = 0.999999999 := by
      unfold BacktestCombined.cdf_tail
      rw [show (1 / (1 + BacktestCombined.p * 0) : ℝ) = 1 by
            unfold BacktestCombined.p; norm_num,
          show ((-0 * 0 / 2 : ℝ)) = 0 by norm_num, Real.exp_zero, hpoly1]
      norm_num
    have hcdf0 : BacktestCombined.normal_cdf 0 = 1 - 0.999999999 / 2 := by
      rw [normal_cdf_of_nonneg le_rfl, htail0]
    have hfv : BacktestCombined.estimate_fair_value 100 100 100 60 = 1 - 0.999999999 / 2 := by
      simp only [BacktestCombined.estimate_fair_value]
      rw [if_neg (by norm_num)]
      rw [show (max (60:ℝ) 0.5 / 60) = 1 by norm_num, Real.sqrt_one]
      rw [if_neg (by norm_num)]
      rw [show ((100:ℝ) - 100) / (100 * (100/100) * 1) = 0 by norm_num]
      rw [hcdf0]
      rw [min_eq_right (by norm_num), max_eq_right (by norm_num)]
    rw [hfv, ror_atm]
    push_cast
    norm_num

/-- Claim C7: for every candle window, price and hour, and all thresholds
d1 ≤ d2, a signal fired by `check_conservative` (resp. `check_aggressive`)
with `min_strike_distance = d2` also fires with d1; consequently, over any
fixed candle path, the signal count is non-increasing as
`min_strike_distance` is swept upward. -/
theorem claim7_min_strike_distance_monotone (path window : List Candle) (price : ℚ)
    (hour : ℤ) (d1 d2 : ℚ) (hd : d1 ≤ d2) :
    ((Backtest.check_conservative window price hour d2).signal = true →
      (Backtest.check_conservative window price hour d1).signal = true)
    ∧ ((Backtest.check_aggressive window price hour d2).signal = true →
      (Backtest.check_aggressive window price hour d1).signal = true)
    ∧ Backtest.count_signals Backtest.check_conservative path d2
        ≤ Backtest.count_signals Backtest.check_conservative path d1
    ∧ Backtest.count_signals Backtest.check_aggressive path d2
        ≤ Backtest.count_signals Backtest.check_aggressive path d1 := by
  have hcons : ∀ (w : List Candle) (pr : ℚ) (hu : ℤ),
      (Backtest.check_conservative w pr hu d2).signal = true →
      (Backtest.check_conservative w pr hu d1).signal = true := by
    intro w pr hu h
    simp only [Backtest.check_conservative, Bool.and_eq_true, decide_eq_true_eq] at h ⊢
    exact ⟨h.1, le_trans hd h.2⟩
  have haggr : ∀ (w : List Candle) (pr : ℚ) (hu : ℤ),
      (Backtest.check_aggressive w pr hu d2).signal = true →
      (Backtest.check_aggressive w pr hu d1).signal = true := by
    intro w pr hu h
    simp only [Backtest.check_aggressive, Bool.and_eq_true, decide_eq_true_eq] at h ⊢
    exact ⟨h.1, le_trans hd h.2⟩
  refine ⟨hcons _ _ _, haggr _ _ _, ?_, ?_⟩
  · unfold Backtest.count_signals
    apply List.countP_mono_left
    intro i _ hi
    exact hcons _ _ _ hi
  · unfold Backtest.count_signals
    apply List.countP_mono_left
    intro i _ hi
    exact haggr _ _ _ hi

/-- Witness for Claim C7: on the concrete uptrend window, the conservative
signal fired at threshold 50 implies it fires at threshold 0, and the path
signal count at 50 is bounded by that at 0. -/
theorem claim7_min_strike_distance_monotone_witness :
    (Backtest.check_conservative c7_window 40120 15 0).signal = true
    ∧ Backtest.count_signals Backtest.check_conservative c7_window 50
        ≤ Backtest.count_signals Backtest.check_conservative c7_window 0 := by
  have h := claim7_min_strike_distance_monotone c7_window c7_window 40120 15 0 50 (by norm_num)
  have hfires : (Backtest.check_conservative c7_window 40120 15 50).signal = true := by
    simp only [Backtest.check_conservative, c7_window, c7_mk, Backtest.calc_sma,
      Backtest.calc_volatility, Backtest.calc_price_position, Backtest.calc_strike,
      Backtest.STRIKE_INCREMENT, List.getLastD, List.length, List.drop, List.map, List.sum]
    rw [if_neg (show ¬ ("OTM" : String) = "ATM" from by decide)]
    norm_num
  exact ⟨h.1 hfires, h.2.2.1⟩

/-- Helper fact: `mk_window` succeeds exactly on 3-candle buckets, and stamps the window
with the bucket key. -/
lemma mk_window_some {ws : ℤ} {cs : List BacktestInterwindow.Candle5m}
    {w : BacktestInterwindow.Window}
    (h : BacktestInterwindow.mk_window ws cs = some w) :
    cs.length = 3 ∧ w.ts = ws := by
  match cs, h with
  | [c0, c1, c2], h =>
    refine ⟨rfl, ?_⟩
    simp only [BacktestInterwindow.mk_window, Option.some.injEq] at h
    rw [← h]
  | [], h => simp [BacktestInterwindow.mk_window] at h
  | [c0], h => simp [BacktestInterwindow.mk_window] at h
  | [c0, c1], h => simp [BacktestInterwindow.mk_window] at h
  | c0 :: c1 :: c2 :: c3 :: tl, h => simp [BacktestInterwindow.mk_window] at h

/-- Claim C9: `group_15min_windows` emits a window only for a 15-minute
bucket containing exactly the expected 3 candles; every bucket with fewer
candles produces no window in the output — incomplete windows are rejected,
never padded. -/
theorem claim9_incomplete_windows_rejected
    (candles : List BacktestInterwindow.Candle5m) (ws : ℤ) :
    (∀ w ∈ BacktestInterwindow.group_15min_windows candles,
        (BacktestInterwindow.bucket candles w.ts).length = 3)
    ∧ ((BacktestInterwindow.bucket candles ws).length < 3 →
        ∀ w ∈ BacktestInterwindow.group_15min_windows candles, w.ts ≠ ws) := by
  have hmain : ∀ w ∈ BacktestInterwindow.group_15min_windows candles,
      (BacktestInterwindow.bucket candles w.ts).length = 3 := by
    intro w hw
    simp only [BacktestInterwindow.group_15min_windows, List.mem_filterMap] at hw
    obtain ⟨ws', _, hmk⟩ := hw
    obtain ⟨hlen, hts⟩ := mk_window_some hmk
    rw [hts]
    exact hlen
  refine ⟨hmain, ?_⟩
  intro hlt w hw hts
  have h3 := hmain w hw
  rw [hts] at h3
  omega

/-- Witness for Claim C9 on four concrete 5-minute candles: the complete
bucket at key 0 yields the single output window, and the incomplete bucket
at key 900 yields none. -/
theorem claim9_incomplete_windows_rejected_witness :
    (BacktestInterwindow.bucket c9_candles c9_w0.ts).length = 3 ∧ c9_w0.ts ≠ 900 := by
  have hlen : 0 < (BacktestInterwindow.group_15min_windows c9_candles).length := by decide
  have hmem : c9_w0 ∈ BacktestInterwindow.group_15min_windows c9_candles := by
    unfold c9_w0
    rw [List.getD_eq_getElem _ _ hlen]
    exact List.getElem_mem hlen
  have h := claim9_incomplete_windows_rejected c9_candles 900
  exact ⟨h.1 c9_w0 hmem, h.2 (by decide) c9_w0 hmem⟩

/-- Below the affordability threshold, one `run_variant` loop step leaves
every statistic unchanged and can only set (never clear) the ruin flag. -/
lemma step_ruined (params : ExperimentConservative.Params) (candles : List Candle)
    (i : ℕ) (s : ExperimentConservative.RunState)
    (hb : s.bankroll < params.position_size * 0.5) :
    (ExperimentConservative.step params candles i s).trades = s.trades
    ∧ (ExperimentConservative.step params candles i s).bankroll = s.bankroll
    ∧ (ExperimentConservative.step params candles i s).total_pnl = s.total_pnl
    ∧ (s.ruin_hit = true →
        (ExperimentConservative.step params candles i s).ruin_hit = true) := by
  simp only [ExperimentConservative.step]
  cases hsig : ExperimentConservative.check_signal
      ((candles.drop (i - 12)).take (i + 1 - (i - 12)))
      (candles.getD i default).close 30 params with
  | none => exact ⟨rfl, rfl, rfl, fun h => h⟩
  | some sig =>
    simp only []
    rw [if_pos hb]
    exact ⟨rfl, rfl, rfl, fun _ => rfl⟩

/-- Below the affordability threshold, any remaining sequence of loop steps
leaves trades, bankroll and total PnL unchanged and preserves the ruin flag. -/
lemma runSteps_ruined (params : ExperimentConservative.Params) (candles : List Candle)
    (idxs : List ℕ) :
    ∀ s : ExperimentConservative.RunState, s.bankroll < params.position_size * 0.5 →
      (ExperimentConservative.runSteps params candles idxs s).trades = s.trades
      ∧ (ExperimentConservative.runSteps params candles idxs s).bankroll = s.bankroll
      ∧ (ExperimentConservative.runSteps params candles idxs s).total_pnl = s.total_pnl
      ∧ (s.ruin_hit = true →
          (ExperimentConservative.runSteps params candles idxs s).ruin_hit = true) := by
  induction idxs with
  | nil => exact fun s _ => ⟨rfl, rfl, rfl, fun h => h⟩
  | cons j tl ih =>
    intro s hb
    obtain ⟨ht, hbk, hpnl, hr⟩ := step_ruined params candles j s hb
    have hb2 : (ExperimentConservative.step params candles j s).bankroll
        < params.position_size * 0.5 := by rw [hbk]; exact hb
    obtain ⟨iht, ihb, ihp, ihr⟩ := ih (ExperimentConservative.step params candles j s) hb2
    simp only [ExperimentConservative.runSteps, List.foldl_cons] at iht ihb ihp ihr ⊢
    exact ⟨by rw [iht, ht], by rw [ihb, hbk], by rw [ihp, hpnl], fun h => ihr (hr h)⟩

/-- Claim C6: in `run_variant`, once a path's bankroll is below the
affordability threshold (half the configured position size) at a signal, the
ruin flag is set to true (no exception — the embedding is a total function),
and over every remaining step no further trade executes: trade count,
bankroll and total PnL stay at the values accumulated before ruin, and the
flag is never cleared. -/
theorem claim6_ruin_is_terminal_flag (params : ExperimentConservative.Params)
    (candles : List Candle) (i : ℕ) (idxs : List ℕ)
    (s : ExperimentConservative.RunState)
    (hb : s.bankroll < params.position_size * 0.5) :
    ((ExperimentConservative.check_signal
        ((candles.drop (i - 12)).take (i + 1 - (i - 12)))
        (candles.getD i default).close 30 params).isSome →
      (ExperimentConservative.step params candles i s).ruin_hit = true)
    ∧ (ExperimentConservative.runSteps params candles idxs s).trades = s.trades
    ∧ (ExperimentConservative.runSteps params candles idxs s).bankroll = s.bankroll
    ∧ (ExperimentConservative.runSteps params candles idxs s).total_pnl = s.total_pnl
    ∧ (s.ruin_hit = true →
        (ExperimentConservative.runSteps params candles idxs s).ruin_hit = true) := by
  refine ⟨?_, runSteps_ruined params candles idxs s hb⟩
  intro hsome
  simp only [ExperimentConservative.step]
  cases hsig : ExperimentConservative.check_signal
      ((candles.drop (i - 12)).take (i + 1 - (i - 12)))
      (candles.getD i default).close 30 params with
  | none => rw [hsig] at hsome; simp at hsome
  | some sig =>
    simp only []
    rw [if_pos hb]

/-- Witness for Claim C6: with bankroll 1 against position size 10 the run
over two further indices is frozen. -/
theorem claim6_ruin_is_terminal_flag_witness :
    (ExperimentConservative.runSteps c6_params [] [12, 13] c6_state).trades
        = c6_state.trades
    ∧ (ExperimentConservative.runSteps c6_params [] [12, 13] c6_state).bankroll
        = c6_state.bankroll := by
  have h := claim6_ruin_is_terminal_flag c6_params [] 12 [12, 13] c6_state
    (by norm_num [c6_params, c6_state, ExperimentConservative.init_state])
  exact ⟨h.2.1, h.2.2.1⟩

/-- Cent rounding is monotone (half-even in Python and half-up in this model
are both monotone). -/
lemma round2_mono {x y : ℚ} (h : x ≤ y) : Backtest.round2 x ≤ Backtest.round2 y := by
  unfold Backtest.round2
  have hr : (round (x * 100) : ℤ) ≤ round (y * 100) := by
    rw [round_eq, round_eq]
    exact Int.floor_mono (by linarith)
  have hc : ((round (x * 100) : ℤ) : ℚ) ≤ ((round (y * 100) : ℤ) : ℚ) := Int.cast_le.2 hr
  linarith

/-- Cent rounding preserves nonnegativity. -/
lemma round2_nonneg {x : ℚ} (h : 0 ≤ x) : 0 ≤ Backtest.round2 x := by
  have h0 : Backtest.round2 0 = 0 := by
    unfold Backtest.round2
    norm_num
  have := round2_mono h
  rw [h0] at this
  exact this

/-- Each candle constructed by one generator iteration satisfies the OHLC
and volume invariants, for any draw values: the `max`/`min` clamp installs
the raw invariant, and monotone cent rounding preserves it. -/
lemma gen_candle_invariant (rs : Backtest.DrawStreams) (h : ℕ) (st : Backtest.GenState)
    (hv : 0 ≤ rs.u_vol h) :
    max (Backtest.gen_candle rs h st).1.open_price (Backtest.gen_candle rs h st).1.close
        ≤ (Backtest.gen_candle rs h st).1.high
    ∧ (Backtest.gen_candle rs h st).1.low
        ≤ min (Backtest.gen_candle rs h st).1.open_price (Backtest.gen_candle rs h st).1.close
    ∧ 0 ≤ (Backtest.gen_candle rs h st).1.volume := by
  simp only [Backtest.gen_candle]
  refine ⟨?_, ?_, ?_⟩
  · exact max_le
      (round2_mono (le_trans (le_max_left _ _) (le_max_right _ _)))
      (round2_mono (le_trans (le_max_right _ _) (le_max_right _ _)))
  · exact le_min
      (round2_mono (le_trans (min_le_right _ _) (min_le_left _ _)))
      (round2_mono (le_trans (min_le_right _ _) (min_le_right _ _)))
  · exact round2_nonneg (by nlinarith)

/-- Every candle in the generator loop output satisfies the invariants. -/
lemma gen_from_invariant (rs : Backtest.DrawStreams) (hv : ∀ n, 0 ≤ rs.u_vol n) :
    ∀ (n h : ℕ) (st : Backtest.GenState) (c : Candle),
      c ∈ Backtest.gen_from rs h n st →
        max c.open_price c.close ≤ c.high
        ∧ c.low ≤ min c.open_price c.close
        ∧ 0 ≤ c.volume := by
  intro n
  induction n with
  | zero =>
    intro h st c hc
    simp [Backtest.gen_from] at hc
  | succ n ih =>
    intro h st c hc
    simp only [Backtest.gen_from, List.mem_cons] at hc
    rcases hc with rfl | hc
    · exact gen_candle_invariant rs h st (hv h)
    · exact ih (h + 1) _ c hc

/-- Claim C4: every candle produced by `generate_realistic_btc_data` — for
every seed (modelled as its induced draw streams; the volume draw respects
`uniform(500, 5000) ≥ 500 ≥ 0`) and every number of days — satisfies
`high ≥ max(open, close)`, `low ≤ min(open, close)` and `volume ≥ 0` on the
stored cent-rounded values. -/
theorem claim4_ohlc_invariant (rs : Backtest.DrawStreams) (days : ℕ)
    (hv : ∀ n, 0 ≤ rs.u_vol n) :
    ∀ c ∈ Backtest.generate_realistic_btc_data rs days,
      max c.open_price c.close ≤ c.high
      ∧ c.low ≤ min c.open_price c.close
      ∧ 0 ≤ c.volume := by
  intro c hc
  exact gen_from_invariant rs hv (days * 24) 0 _ c hc

/-- Witness for Claim C4: the first candle of a one-day path generated from
the all-zero draw streams. -/
theorem claim4_ohlc_invariant_witness :
    max c4_candle.open_price c4_candle.close ≤ c4_candle.high
    ∧ c4_candle.low ≤ min c4_candle.open_price c4_candle.close
    ∧ 0 ≤ c4_candle.volume := by
  have hlen : 0 < (Backtest.generate_realistic_btc_data c4_streams 1).length := by decide
  have hmem : c4_candle ∈ Backtest.generate_realistic_btc_data c4_streams 1 := by
    unfold c4_candle
    rw [List.getD_eq_getElem _ _ hlen]
    exact List.getElem_mem hlen
  exact claim4_ohlc_invariant c4_streams 1 (fun n => le_refl 0) c4_candle hmem

/-- Claim C10: for every `distance_from_strike` and every `minutes_remaining`
in `[0, 60]`, `estimate_contract_price` returns a resale price in
`[0.30, 0.99]`; the bound on `minutes_remaining` is necessary, since with
`minutes_remaining = 300 > 180` and positive distance `100` the returned
price is negative (the exit engine only ever calls it with 30 and 10 minutes
remaining). -/
theorem claim10_contract_price_range (d m : ℚ) (h0 : 0 ≤ m) (h60 : m ≤ 60) :
    ((3/10 : ℚ) ≤ Backtest.estimate_contract_price d m
      ∧ Backtest.estimate_contract_price d m ≤ 99/100)
    ∧ Backtest.estimate_contract_price 100 300 < 0 := by
  constructor
  · unfold Backtest.estimate_contract_price
    split_ifs with hd
    · norm_num
    · push_neg at hd
      have hb1 : (1/2 : ℚ) ≤ min 0.95 (0.5 + d / 1000) := by
        apply le_min <;> nlinarith
      have ht1 : (1 : ℚ) ≤ 1 + (60 - m) / 120 := by nlinarith
      have hprod : (1/2 : ℚ) * 1 ≤ min 0.95 (0.5 + d / 1000) * (1 + (60 - m) / 120) :=
        mul_le_mul hb1 ht1 (by norm_num) (le_trans (by norm_num) hb1)
      constructor
      · exact le_min (by norm_num) (by nlinarith)
      · exact le_trans (min_le_left _ _) (by norm_num)
  · norm_num [Backtest.estimate_contract_price]

/-- Witness for Claim C10 at distance 500, 30 minutes remaining. -/
theorem claim10_contract_price_range_witness :
    ((3/10 : ℚ) ≤ Backtest.estimate_contract_price 500 30
      ∧ Backtest.estimate_contract_price 500 30 ≤ 99/100)
    ∧ Backtest.estimate_contract_price 100 300 < 0 :=
  claim10_contract_price_range 500 30 (by norm_num) (by norm_num)

/-- Claim C1: for every trade with at least one subsequent candle available,
`simulate_trade` returns exactly one outcome from {win, loss,
early_exit_critical, early_exit_ev, early_exit_high_risk}; when no checkpoint
triggers an early exit, the outcome is `win` iff the settlement price (close
of the first following candle) is strictly greater than the strike. -/
theorem claim1_simulate_trade_outcome (entry_price strike contracts volatility : ℚ)
    (candles_after : List Candle) (h : candles_after ≠ []) :
    (Backtest.simulate_trade entry_price strike contracts candles_after volatility).outcome ∈
      [Backtest.Outcome.win, Backtest.Outcome.loss, Backtest.Outcome.early_exit_critical,
       Backtest.Outcome.early_exit_ev, Backtest.Outcome.early_exit_high_risk]
    ∧ ((Backtest.simulate_trade entry_price strike contracts candles_after volatility).outcome
          = Backtest.Outcome.win ∨
       (Backtest.simulate_trade entry_price strike contracts candles_after volatility).outcome
          = Backtest.Outcome.loss →
       ((Backtest.simulate_trade entry_price strike contracts candles_after volatility).outcome
          = Backtest.Outcome.win ↔ strike < (candles_after.head h).close)) := by
  match candles_after, h with
  | c :: rest, _ =>
    simp only [Backtest.simulate_trade, List.head_cons]
    split_ifs with h1 h2 h3 h4 <;> simp_all

/-- Witness for Claim C1 on the flat 150-candle with strike 100: the outcome
is in the admissible set and the win outcome certifies `strike < close`. -/
theorem claim1_simulate_trade_outcome_witness :
    (Backtest.simulate_trade (3/5) 100 16 [c1_candle] 1).outcome ∈
      [Backtest.Outcome.win, Backtest.Outcome.loss, Backtest.Outcome.early_exit_critical,
       Backtest.Outcome.early_exit_ev, Backtest.Outcome.early_exit_high_risk]
    ∧ (100 : ℚ) < c1_candle.close := by
  have h := claim1_simulate_trade_outcome (3/5) 100 16 1 [c1_candle] (by simp)
  refine ⟨h.1, ?_⟩
  have h2 := h.2 (Or.inl c1_win)
  rw [List.head_cons] at h2
  exact h2.mp c1_win

/-- Counterexample to Claim C2 as stated: at volatility 0 with 30 minutes
remaining — not at the `minutes_remaining ≤ 0` boundary — the fair-value
function still returns exactly 0 (the `vol <= 0` guard shares the hard
indicator branch), so the clamp into [0.01, 0.99] does not apply there. -/
theorem claim2_counterexample :
    BacktestCombined.estimate_fair_value 100 200 0 30 = 0 ∧ ¬ ((30:ℝ) ≤ 0) := by
  constructor
  · simp only [BacktestCombined.estimate_fair_value]
    rw [if_pos (Or.inl le_rfl)]
    norm_num
  · norm_num

/-- Claim C2 (amended): for every price, strike, volatility and
minutes_remaining, `estimate_fair_value` returns a probability in
[0.01, 0.99] — hence never exactly 0 or 1 — except at the boundary
`vol ≤ 0 ∨ minutes_remaining ≤ 0`, where it returns exactly 1.0 if
price > strike and exactly 0.0 otherwise.  (The original claim tied the
exception to `minutes_remaining ≤ 0` only; the source guard is
`vol <= 0 or mins_remaining <= 0`.) -/
theorem claim2_fair_value_range (price strike vol mins : ℝ) :
    (0 < vol → 0 < mins →
      0.01 ≤ BacktestCombined.estimate_fair_value price strike vol mins
      ∧ BacktestCombined.estimate_fair_value price strike vol mins ≤ 0.99)
    ∧ (vol ≤ 0 ∨ mins ≤ 0 →
      BacktestCombined.estimate_fair_value price strike vol mins
        = if strike < price then 1 else 0) := by
  constructor
  · intro hv hm
    unfold BacktestCombined.estimate_fair_value
    rw [if_neg (by push_neg; constructor <;> linarith)]
    rcases le_or_lt (price * (vol / 100) * Real.sqrt (max mins 0.5 / 60)) 0 with hem | hem
    · rw [if_pos hem]
      split_ifs <;> norm_num
    · rw [if_neg (not_le.2 hem)]
      exact ⟨le_max_left _ _, max_le (by norm_num) (min_le_left _ _)⟩
  · intro hb
    unfold BacktestCombined.estimate_fair_value
    rw [if_pos hb]

/-- Witness for Claim C2 at price 150, strike 100, vol 50, 30 minutes. -/
theorem claim2_fair_value_range_witness :
    0.01 ≤ BacktestCombined.estimate_fair_value 150 100 50 30
    ∧ BacktestCombined.estimate_fair_value 150 100 50 30 ≤ 0.99 :=
  (claim2_fair_value_range 150 100 50 30).1 (by norm_num) (by norm_num)

/-- Claim C3: for contracts ≥ 1 and entry > 0,
`calc_net_pnl(contracts, entry, entry, "settlement")` is strictly negative and
equals exactly minus the entry-fee component `-(contracts * entry * 1.5/100)`;
the entry fee is charged on every trade, and an exit fee (on the exit revenue)
is charged only when the exit type is `"early"`. -/
theorem claim3_net_pnl_fee_only (contracts entry exit_price : ℚ)
    (hc : 1 ≤ contracts) (he : 0 < entry) :
    MarketWatch.Backtest.calc_net_pnl contracts entry entry "settlement"
        = -(contracts * entry * (1.5 / 100))
    ∧ MarketWatch.Backtest.calc_net_pnl contracts entry entry "settlement" < 0
    ∧ MarketWatch.Backtest.calc_net_pnl contracts entry exit_price "early"
        = MarketWatch.Backtest.calc_net_pnl contracts entry exit_price "settlement"
          - contracts * exit_price * (1.5 / 100) := by
  refine ⟨?_, ?_, ?_⟩
  · simp only [MarketWatch.Backtest.calc_net_pnl, MarketWatch.Backtest.TAKER_FEE_PCT,
      if_neg (by decide : ¬ ("settlement" : String) = "early")]
    ring
  · simp only [MarketWatch.Backtest.calc_net_pnl, MarketWatch.Backtest.TAKER_FEE_PCT,
      if_neg (by decide : ¬ ("settlement" : String) = "early")]
    nlinarith
  · simp only [MarketWatch.Backtest.calc_net_pnl, MarketWatch.Backtest.TAKER_FEE_PCT]
    rw [if_pos trivial, if_neg (by decide : ¬ ("settlement" : String) = "early")]
    ring

/-- Witness for Claim C3 at contracts = 2, entry = 1/2, exit = 3/4. -/
theorem claim3_net_pnl_fee_only_witness :
    MarketWatch.Backtest.calc_net_pnl 2 (1/2) (1/2) "settlement"
        = -(2 * (1/2) * (1.5 / 100))
    ∧ MarketWatch.Backtest.calc_net_pnl 2 (1/2) (1/2) "settlement" < 0
    ∧ MarketWatch.Backtest.calc_net_pnl 2 (1/2) (3/4) "early"
        = MarketWatch.Backtest.calc_net_pnl 2 (1/2) (3/4) "settlement"
          - 2 * (3/4) * (1.5 / 100) :=
  claim3_net_pnl_fee_only 2 (1/2) (3/4) (by norm_num) (by norm_num)
